import Mathlib

/-!
Verification development for the sheet-to-ledger normalization pipeline of
the expense-consolidation repository (src/load_data.py, src/main.py,
src/report.py).

The pipeline is shallowly embedded: a spreadsheet is a list of worksheets,
a worksheet a grid of cell strings; pandas DataFrames become a header plus
a list of rows; Python exceptions become an `Except` error channel that the
per-sheet try/except converts into a per-source outcome record; Python
floats on the currency path are modelled as exact decimals (every amount
in the claims is dyadic and tiny, so no rounding of the binary
representation intervenes); `Series.round()` is numpy round-half-to-even.

Python's `float(str)` is modelled on the usual finite decimal grammar
(optional surrounding whitespace, sign, digits with optional fractional
part, optional exponent). The `inf`/`nan` spellings and digit-group
underscores that CPython additionally accepts are not modelled; inputs
using them end in a failure outcome either way.
-/

/-! ## Python primitives: whitespace, str.rstrip, float(str) -/

/-- Python's `str` whitespace set (the characters `strip`/`rstrip` remove
and `float` ignores around a numeral), restricted to ASCII. -/
def isPyWs (c : Char) : Bool :=
  (c == ' ') || (c == '\t') || (c == '\n') || (c == '\r') || (c == '\x0b') || (c == '\x0c')

/-- Whitespace stripped from both ends, as Python `str.strip()`. -/
def stripWs (l : List Char) : List Char :=
  ((l.dropWhile isPyWs).reverse.dropWhile isPyWs).reverse

/-- Trailing whitespace stripped, as Python `str.rstrip()` (used on each
cached line in `getSheetUrls`). -/
def rstripChars (l : List Char) : List Char :=
  (l.reverse.dropWhile isPyWs).reverse

/-- Value of a list of decimal digit characters. -/
def natOfDigits (l : List Char) : Nat :=
  l.foldl (fun a c => a * 10 + (c.toNat - '0'.toNat)) 0

/-- The exponent tail of a float literal: empty, or `e`/`E`, an optional
sign and at least one digit. -/
def parseExp : List Char → Option Int
  | [] => some 0
  | c :: r =>
    if c == 'e' || c == 'E' then
      let sr : Int × List Char :=
        match r with
        | '-' :: r2 => (-1, r2)
        | '+' :: r2 => (1, r2)
        | _ => (1, r)
      let ds := sr.2.takeWhile Char.isDigit
      if ds.isEmpty || !(sr.2.dropWhile Char.isDigit).isEmpty then none
      else some (sr.1 * (natOfDigits ds : Int))
    else none

/-- An exact decimal number: the value `num / 10 ^ scale`. Stands in for
the Python float a decimal numeral denotes; every amount the pipeline's
claims exercise is exact in both representations. -/
structure DecVal where
  num : Int
  scale : Nat
  deriving DecidableEq, Repr

/-- Python `float(s)` on a character list: optional whitespace and sign, a
mantissa with at least one digit, optional exponent; `none` when the text
is not such a numeral (CPython raises `ValueError`). -/
def pyFloatChars (l0 : List Char) : Option DecVal :=
  let l := stripWs l0
  let sl : Bool × List Char :=
    match l with
    | '-' :: r => (true, r)
    | '+' :: r => (false, r)
    | _ => (false, l)
  let ds := sl.2.takeWhile Char.isDigit
  let l2 := sl.2.dropWhile Char.isDigit
  let fl : List Char × List Char :=
    match l2 with
    | '.' :: r => (r.takeWhile Char.isDigit, r.dropWhile Char.isDigit)
    | _ => ([], l2)
  if ds.isEmpty && fl.1.isEmpty then none
  else
    match parseExp fl.2 with
    | none => none
    | some e =>
      let n0 : Int := (natOfDigits (ds ++ fl.1) : Int)
      let n1 : Int := if sl.1 then -n0 else n0
      some (if 0 ≤ e then ⟨n1 * 10 ^ e.toNat, fl.1.length⟩ else ⟨n1, fl.1.length + (-e).toNat⟩)

/-- Python `float(s)` on a string. -/
def pyFloatOfString (s : String) : Option DecVal := pyFloatChars s.data

/-- numpy/pandas `Series.round()` of `num / den` (for `den > 0`): round
half to even, the `np.rint` convention. -/
def roundHalfEvenDiv (num : Int) (den : Int) : Int :=
  let f := num.fdiv den
  let r2 := 2 * (num - f * den)
  if r2 < den then f
  else if den < r2 then f + 1
  else if f % 2 = 0 then f else f + 1

/-! ## The amount conversion chain

`load_data.py` (SheetsParser._parseSingleSheet, lines 141-152):
  `df["Amount"].str.replace(r"[,\$]", "", regex=True).replace("", "0")
     .fillna("0").astype(float).mul(100).round().astype(int)`
`main.py` (lines 75-84), the historical variant:
  `df["Amount"].str.replace(r"[,\$]", "", regex=True)
     .str.replace(r"\((.*?)\)", r"-\1", regex=True)
     .astype(float).mul(100).round().astype(int)`

The cells read from a worksheet are always strings, so `.fillna("0")` never
fires and is the identity here; `.mul(100).round().astype(int)` is collapsed
into `centsOfFloat` (the rounded value is integral, so the final int cast is
exact). -/

/-- `str.replace(r"[,\$]", "", regex=True)`: every `,` and `$` removed. -/
def stripAmount (s : String) : String :=
  ⟨s.data.filter (fun c => !((c == ',') || (c == '$')))⟩

/-- `Series.replace("", "0")`: an exactly-empty cell becomes `"0"`.
No whitespace trimming happens here. -/
def emptyToZero (s : String) : String :=
  if s = "" then "0" else s

/-- `.mul(100).round().astype(int)` applied to one float: the rounded
value is integral, so the final int cast is exact. -/
def centsOfFloat (v : DecVal) : Int :=
  roundHalfEvenDiv (v.num * 100) (10 ^ v.scale)

/-- Find the first `)` of a character list: the text before it and the
text after it, `none` when there is no `)`. -/
def splitAtClose : List Char → Option (List Char × List Char)
  | [] => none
  | c :: rest =>
    if c == ')' then some ([], rest)
    else (splitAtClose rest).map (fun p => (c :: p.1, p.2))

/-- One `re.sub(r"\((.*?)\)", r"-\1", s)` pass with explicit fuel (the
fuel is an upper bound on the scan length, so `parenNegateChars` below
always supplies enough): each `(...)` group with a minimal body becomes
`-` followed by the body, replacements are not rescanned, an unmatched
`(` is left in place. -/
def parenNegateFuel : Nat → List Char → List Char
  | 0, l => l
  | _ + 1, [] => []
  | fuel + 1, c :: rest =>
    if c == '(' then
      match splitAtClose rest with
      | some p => '-' :: (p.1 ++ parenNegateFuel fuel p.2)
      | none => c :: parenNegateFuel fuel rest
    else c :: parenNegateFuel fuel rest

/-- `str.replace(r"\((.*?)\)", r"-\1", regex=True)` of the historical
variant (main.py line 79). -/
def parenNegateChars (l : List Char) : List Char :=
  parenNegateFuel l.length l

/-- The historical parenthesis-negation step on a string. -/
def parenNegateStr (s : String) : String :=
  ⟨parenNegateChars s.data⟩

/-! ## Errors, outcomes and the data model -/

/-- Payload of the `assert` statements of `_parseSingleSheet`; the Python
code interpolates these into the `AssertionError` message. -/
inductive FailReason
  | missingTab
  | noData
  | missingColumns (cols : List String)
  | notIntegerDtype
  deriving DecidableEq, Repr

/-- Non-assertion Python exceptions that the final `except Exception`
handler of `_parseSingleSheet` converts into an `Error` outcome. -/
inductive PyExc
  | openErr (msg : String)
  | worksheetNotFound
  | raggedData
  | floatConv (s : String)
  deriving DecidableEq, Repr

/-- What the body of the per-sheet `try` can raise. -/
inductive Exc
  | assert (r : FailReason)
  | exc (e : PyExc)
  deriving DecidableEq, Repr

deriving instance DecidableEq for Except

/-- Status field of a per-source summary entry: `"OK"`,
`"Assertion failed: ..."` or `"Error: ..."`. -/
inductive Status
  | ok
  | assertionFailed (r : FailReason)
  | error (e : PyExc)
  deriving DecidableEq, Repr

/-- One canonical ledger row of the combined CSV: `Date`, `Description`
and the exact integer `amountCents`. -/
structure Record where
  date : String
  description : String
  amountCents : Int
  deriving DecidableEq, Repr

/-- A pandas DataFrame of cell strings: column labels plus rows. -/
structure DataFrame where
  header : List String
  rows : List (List String)
  deriving DecidableEq, Repr

/-- One worksheet (tab) of a spreadsheet: its title and
`get_all_values()` grid, row 0 the header. -/
structure Worksheet where
  title : String
  cells : List (List String)
  deriving DecidableEq, Repr

/-- One spreadsheet as `gspread` opens it. -/
structure Spreadsheet where
  sheets : List Worksheet
  deriving DecidableEq, Repr

/-- A source handle: its URL together with what `gc.open_by_url(url)`
yields for it (a spreadsheet, or a raised exception message). -/
structure Source where
  url : String
  fetch : Except String Spreadsheet

/-- Parser configuration: the optional `--exclude-regex`, modelled as the
predicate `Series.str.contains` evaluates on a `Description` value. -/
structure Config where
  excludeRegex : Option (String → Bool)

/-- The dict `_parseSingleSheet` returns: url, row count, status, and the
parsed DataFrame (present only on success). -/
structure Outcome where
  sheet_url : String
  rows : Nat
  status : Status
  df : Option (List Record)
  deriving DecidableEq, Repr

/-- One entry of `summary_data`: the outcome dict without its `df` key. -/
structure Summary where
  sheet_url : String
  rows : Nat
  status : Status
  deriving DecidableEq, Repr

/-- What one `parseSheets` run observably does: the combined-CSV write (or
`none` when no write happens and any previous file is left as it was), the
`No expenses compiled.` warning, and the printed per-source summary. -/
structure RunResult where
  ledgerWrite : Option (List Record)
  warned : Bool
  summary : List Summary
  deriving DecidableEq, Repr

/-! ## The per-sheet pipeline (load_data.py `SheetsParser._parseSingleSheet`) -/

/-- The required column set of line 118:
`required_cols = {"Date", "Description", "Amount"}`. -/
def requiredCols : List String := ["Date", "Description", "Amount"]

/-- Index of the first column with a given label (pandas label lookup on a
unique-label frame). -/
def colIdx : List String → String → Nat
  | [], _ => 0
  | h :: t, c => if h = c then 0 else colIdx t c + 1

/-- Value of one row at a labelled column. -/
def cellVal (header : List String) (row : List String) (c : String) : String :=
  (row.get? (colIdx header c)).getD ""

/-- One column of a frame, as `df[c]` of an all-string frame. -/
def colValues (df : DataFrame) (c : String) : List String :=
  df.rows.map (fun r => cellVal df.header r c)

/-- `gc.open_by_url(url)` (line 104): its exception lands in the
`except Exception` handler. -/
def openSheet (src : Source) : Except Exc Spreadsheet :=
  match src.fetch with
  | .ok sh => .ok sh
  | .error m => .error (.exc (.openErr m))

/-- Lines 107-110: `assert "Expenses" in worksheets` then
`sh.worksheet("Expenses")` (which itself would raise if absent). -/
def findExpensesTab (sh : Spreadsheet) : Except Exc Worksheet :=
  if "Expenses" ∈ sh.sheets.map Worksheet.title then
    match sh.sheets.find? (fun w => w.title == "Expenses") with
    | some w => .ok w
    | none => .error (.exc .worksheetNotFound)
  else .error (.assert .missingTab)

/-- Line 115: `pd.DataFrame(data, columns=header)`; pandas raises a
`ValueError` when a data row's width differs from the header's. -/
def mkDataFrame (header : List String) (data : List (List String)) : Except Exc DataFrame :=
  if data.all (fun r => decide (r.length = header.length)) then .ok ⟨header, data⟩
  else .error (.exc .raggedData)

/-- Line 119: `missing_cols = required_cols - set(df.columns)`. -/
def missingColumnsOf (header : List String) : List String :=
  requiredCols.filter (fun c => decide (c ∉ header))

/-- Line 120: `assert not missing_cols`. -/
def checkColumns (df : DataFrame) : Except Exc DataFrame :=
  if missingColumnsOf df.header = [] then .ok df
  else .error (.assert (.missingColumns (missingColumnsOf df.header)))

/-- Line 123: `df = df[[col for col in df.columns if col in required_cols]]`. -/
def projectCols (df : DataFrame) (keep : List String) : DataFrame :=
  { header := df.header.filter (fun c => decide (c ∈ keep)),
    rows := df.rows.map (fun r =>
      ((df.header.zip r).filter (fun p => decide (p.1 ∈ keep))).map (fun p => p.2)) }

/-- `df.drop(columns=[c])`. -/
def dropColumn (df : DataFrame) (c : String) : DataFrame :=
  { header := df.header.filter (fun h => decide (h ≠ c)),
    rows := df.rows.map (fun r =>
      ((df.header.zip r).filter (fun p => decide (p.1 ≠ c))).map (fun p => p.2)) }

/-- Lines 126-128: drop a column literally named `Accounted` if present. -/
def dropAccounted (df : DataFrame) : DataFrame :=
  if "Accounted" ∈ df.header then dropColumn df "Accounted" else df

/-- Lines 131-139: with an exclude pattern configured, keep the rows whose
`Description` does not match (`df = df[~mask]`). -/
def applyExclude (exclude : Option (String → Bool)) (df : DataFrame) : DataFrame :=
  match exclude with
  | none => df
  | some p =>
    { header := df.header,
      rows := df.rows.filter (fun r => !p (cellVal df.header r "Description")) }

/-- Series dtype, for the line 154 `pd.api.types.is_integer_dtype` check. -/
inductive Dtype
  | strD
  | float64
  | int64
  deriving DecidableEq, Repr

/-- `pd.api.types.is_integer_dtype`. -/
def isIntegerDtype : Dtype → Bool
  | .int64 => true
  | _ => false

/-- `.astype(float)` over a string column: the first non-numeric entry
raises `ValueError: could not convert string to float: ...` carrying that
entry. -/
def astypeFloat : List String → Except Exc (List DecVal)
  | [] => .ok []
  | s :: rest =>
    match pyFloatOfString s with
    | none => .error (.exc (.floatConv s))
    | some q => (astypeFloat rest).map (fun qs => q :: qs)

/-- The load_data.py amount chain over the `Amount` column (lines 142-151):
strip `,`/`$`, map `""` to `"0"`, convert to float, then
`.mul(100).round().astype(int)`; the result dtype is int64. -/
def loadAmountChain (amounts : List String) : Except Exc (List Int × Dtype) :=
  (astypeFloat ((amounts.map stripAmount).map emptyToZero)).map
    (fun qs => (qs.map centsOfFloat, Dtype.int64))

/-- The main.py amount chain (lines 76-84): strip `,`/`$`, rewrite
`(N)` to `-N`, convert to float, then `.mul(100).round().astype(int)`.
No empty-string rescue. -/
def legacyAmountChain (amounts : List String) : Except Exc (List Int × Dtype) :=
  (astypeFloat ((amounts.map stripAmount).map parenNegateStr)).map
    (fun qs => (qs.map centsOfFloat, Dtype.int64))

/-- The per-element reading of the load_data.py chain: the pure
`parseAmount` function of the spec, yielding exact cents. -/
def parseAmountCents (s : String) : Except Exc Int :=
  match pyFloatOfString (emptyToZero (stripAmount s)) with
  | none => .error (.exc (.floatConv (emptyToZero (stripAmount s))))
  | some q => .ok (centsOfFloat q)

/-- The canonical records of a validated frame zipped with its computed
cents column (the frame's `Date` and `Description` with `amountCents`;
line 152 drops the raw `Amount`). -/
def buildRecords (df : DataFrame) (cents : List Int) : List Record :=
  (df.rows.zip cents).map (fun rc =>
    ⟨cellVal df.header rc.1 "Date", cellVal df.header rc.1 "Description", rc.2⟩)

/-- Lines 141-156: run an amount chain over the `Amount` column, then
`assert pd.api.types.is_integer_dtype(df["amountCents"])`. -/
def convertAmounts (chain : List String → Except Exc (List Int × Dtype))
    (df : DataFrame) : Except Exc (List Record) :=
  match chain (colValues df "Amount") with
  | .error e => .error e
  | .ok cd =>
    if isIntegerDtype cd.2 then .ok (buildRecords df cd.1)
    else .error (.assert .notIntegerDtype)

/-- The body of `_parseSingleSheet`'s `try` block, parameterised by the
amount chain and the optional exclusion predicate. -/
def parseCoreWith (chain : List String → Except Exc (List Int × Dtype))
    (exclude : Option (String → Bool)) (src : Source) : Except Exc (List Record) :=
  match openSheet src with
  | .error e => .error e
  | .ok sh =>
    match findExpensesTab sh with
    | .error e => .error e
    | .ok ws =>
      match ws.cells with
      | [] => .error (.assert .noData)
      | header :: data =>
        match mkDataFrame header data with
        | .error e => .error e
        | .ok df0 =>
          match checkColumns df0 with
          | .error e => .error e
          | .ok df1 =>
            convertAmounts chain (applyExclude exclude (dropAccounted (projectCols df1 requiredCols)))

/-- Lines 159-166: the `try/except AssertionError/except Exception`
wrapper turning an exception into the returned dict; failed outcomes carry
`rows = 0` and no `df` key. -/
def outcomeOf (url : String) (r : Except Exc (List Record)) : Outcome :=
  match r with
  | .ok recs => ⟨url, recs.length, .ok, some recs⟩
  | .error (.assert reason) => ⟨url, 0, .assertionFailed reason, none⟩
  | .error (.exc e) => ⟨url, 0, .error e, none⟩

/-- `SheetsParser._parseSingleSheet` of load_data.py. -/
def parseSingleSheet (cfg : Config) (src : Source) : Outcome :=
  outcomeOf src.url (parseCoreWith loadAmountChain cfg.excludeRegex src)

/-- The per-sheet loop body of main.py (lines 44-99), the historical
variant: same validation, the parenthesis-negating amount chain, no
exclusion filter. -/
def legacyParseCore (src : Source) : Except Exc (List Record) :=
  match openSheet src with
  | .error e => .error e
  | .ok sh =>
    match findExpensesTab sh with
    | .error e => .error e
    | .ok ws =>
      match ws.cells with
      | [] => .error (.assert .noData)
      | header :: data =>
        match mkDataFrame header data with
        | .error e => .error e
        | .ok df0 =>
          match checkColumns df0 with
          | .error e => .error e
          | .ok df1 =>
            convertAmounts legacyAmountChain (dropAccounted (projectCols df1 requiredCols))

/-- One main.py loop iteration as an outcome record. -/
def legacyParseSingleSheet (src : Source) : Outcome :=
  outcomeOf src.url (legacyParseCore src)

/-- Line 81: the summary entry is the result dict without its `df` key. -/
def summaryOf (o : Outcome) : Summary :=
  ⟨o.sheet_url, o.rows, o.status⟩

/-- `SheetsParser.parseSheets` (lines 76-99): process every source in
order, collect each df with `rows > 0`, then either write the
concatenation to the combined CSV (full overwrite) or only warn, and
report every summary entry in order. -/
def parseSheets (cfg : Config) (srcs : List Source) : RunResult :=
  let outcomes := srcs.map (parseSingleSheet cfg)
  let allExpenses := outcomes.filterMap (fun o => if o.rows > 0 then o.df else none)
  { ledgerWrite := if allExpenses.isEmpty then none else some allExpenses.flatten,
    warned := allExpenses.isEmpty,
    summary := outcomes.map summaryOf }

/-! ## The source cache (load_data.py `getSheetUrls`, lines 28-63) -/

/-- Lines 30-31: `file.writelines([url + "\n" for url in sheet_urls])`
into the freshly truncated cache file. -/
def writeCacheContent (urls : List (List Char)) : List Char :=
  (urls.map (fun u => u ++ ['\n'])).flatten

/-- Universal-newline translation, tracking whether the previous character
was a `\r` (whose following `\n`, if any, is then swallowed). -/
def nlTranslateAux : Bool → List Char → List Char
  | _, [] => []
  | afterCr, c :: rest =>
    if c == '\r' then '\n' :: nlTranslateAux true rest
    else if c == '\n' && afterCr then nlTranslateAux false rest
    else c :: nlTranslateAux false rest

/-- Universal-newline translation of text-mode reading: `\r\n` and lone
`\r` both become `\n`. -/
def nlTranslate (l : List Char) : List Char :=
  nlTranslateAux false l

/-- Split at every `'\n'` (the separators removed). -/
def splitNl : List Char → List (List Char)
  | [] => [[]]
  | c :: rest =>
    match splitNl rest with
    | [] => [[]]
    | seg :: segs => if c == '\n' then [] :: seg :: segs else (c :: seg) :: segs

/-- Iterating a Python text file yields no line for the text after the
final newline when that text is empty. -/
def dropLastEmptySeg (segs : List (List Char)) : List (List Char) :=
  match segs.getLast? with
  | some [] => segs.dropLast
  | _ => segs

/-- The lines Python's `for line in file` yields, minus their line
terminators (which the subsequent `rstrip` would remove anyway). -/
def pyReadLines (content : List Char) : List (List Char) :=
  dropLastEmptySeg (splitNl (nlTranslate content))

/-- Lines 37-39: `[line.rstrip() for line in file]`. -/
def readCacheUrls (content : List Char) : List (List Char) :=
  (pyReadLines content).map rstripChars

/-- Write the url list to the cache, read it back. -/
def cacheRoundTrip (urls : List (List Char)) : List (List Char) :=
  readCacheUrls (writeCacheContent urls)

/-- Line 57: `f"https://docs.google.com/spreadsheets/d/{f['id']}"`. -/
def driveUrlBase : List Char :=
  "https://docs.google.com/spreadsheets/d/".data

/-- The handle URL a live directory query produces for a file id. -/
def liveSheetUrl (id : List Char) : List Char :=
  driveUrlBase ++ id

/-! ## Shared lemmas about the pipeline -/

/-- A successful outcome is built from the parsed records: url, their
count, `OK`, and the records themselves. -/
theorem parseSingleSheet_ok_shape (cfg : Config) (src : Source)
    (h : (parseSingleSheet cfg src).status = Status.ok) :
    ∃ recs, parseSingleSheet cfg src = ⟨src.url, recs.length, Status.ok, some recs⟩ := by
  cases hr : parseCoreWith loadAmountChain cfg.excludeRegex src with
  | ok recs =>
    exact ⟨recs, by simp [parseSingleSheet, outcomeOf, hr]⟩
  | error e =>
    cases e with
    | assert r => simp [parseSingleSheet, outcomeOf, hr] at h
    | exc e2 => simp [parseSingleSheet, outcomeOf, hr] at h

/-- A source whose spreadsheet opens but has no tab titled `Expenses`
yields the `'Expenses' tab missing` assertion outcome. -/
theorem parseSingleSheet_missingTab (cfg : Config) (src : Source) (sh : Spreadsheet)
    (hf : src.fetch = Except.ok sh)
    (ht : "Expenses" ∉ sh.sheets.map Worksheet.title) :
    parseSingleSheet cfg src = ⟨src.url, 0, Status.assertionFailed FailReason.missingTab, none⟩ := by
  simp [parseSingleSheet, parseCoreWith, openSheet, hf, findExpensesTab, ht, outcomeOf]

/-- A string column's float conversion only ever raises the
`could not convert string to float` error. -/
theorem astypeFloat_error_shape (l : List String) (e : Exc)
    (h : astypeFloat l = Except.error e) : ∃ s, e = Exc.exc (PyExc.floatConv s) := by
  induction l generalizing e with
  | nil => simp [astypeFloat] at h
  | cons a rest ih =>
    rw [astypeFloat] at h
    cases hp : pyFloatOfString a with
    | none => rw [hp] at h; exact ⟨a, by injection h with h2; exact h2.symm⟩
    | some q =>
      rw [hp] at h
      cases hrest : astypeFloat rest with
      | ok qs => rw [hrest] at h; simp [Except.map] at h
      | error e2 =>
        rw [hrest] at h
        simp only [Except.map] at h
        injection h with h2
        exact h2 ▸ ih e2 hrest

/-- The load_data.py amount chain fails only with a float-conversion
error. -/
theorem loadAmountChain_error_shape (l : List String) (e : Exc)
    (h : loadAmountChain l = Except.error e) : ∃ s, e = Exc.exc (PyExc.floatConv s) := by
  rw [loadAmountChain] at h
  cases ha : astypeFloat ((l.map stripAmount).map emptyToZero) with
  | ok qs => rw [ha] at h; simp [Except.map] at h
  | error e2 =>
    rw [ha] at h; simp [Except.map] at h
    exact h ▸ astypeFloat_error_shape _ e2 ha

/-- When the load_data.py amount chain succeeds, the resulting series has
integer dtype (it ends in `.astype(int)`). -/
theorem loadAmountChain_ok_dtype (l : List String) (p : List Int × Dtype)
    (h : loadAmountChain l = Except.ok p) : p.2 = Dtype.int64 := by
  rw [loadAmountChain] at h
  cases ha : astypeFloat ((l.map stripAmount).map emptyToZero) with
  | ok qs => rw [ha] at h; simp [Except.map] at h; rw [← h]
  | error e2 => rw [ha] at h; simp [Except.map] at h

/-- The try-body of `_parseSingleSheet` never raises the
`amountCents not integer type` assertion. -/
theorem parseCore_no_dtype_assert (exclude : Option (String → Bool)) (src : Source) :
    parseCoreWith loadAmountChain exclude src ≠
      Except.error (Exc.assert FailReason.notIntegerDtype) := by
  intro h
  rw [parseCoreWith] at h
  cases hf : src.fetch with
  | error m => simp only [openSheet, hf] at h; simp at h
  | ok sh =>
    simp only [openSheet, hf] at h
    by_cases hmem : "Expenses" ∈ sh.sheets.map Worksheet.title
    · simp only [findExpensesTab, if_pos hmem] at h
      cases hfind : sh.sheets.find? (fun w => w.title == "Expenses") with
      | none => simp only [hfind] at h; simp at h
      | some w =>
        simp only [hfind] at h
        cases hc : w.cells with
        | nil => simp only [hc] at h; simp at h
        | cons header data =>
          simp only [hc, mkDataFrame] at h
          by_cases hall : data.all (fun r => decide (r.length = header.length)) = true
          · rw [if_pos hall] at h
            simp only [checkColumns] at h
            by_cases hmc : missingColumnsOf header = []
            · rw [if_pos hmc] at h
              simp only [convertAmounts] at h
              cases hch : loadAmountChain (colValues
                  (applyExclude exclude (dropAccounted (projectCols ⟨header, data⟩ requiredCols)))
                  "Amount") with
              | error e =>
                simp only [hch] at h
                obtain ⟨s, hs⟩ := loadAmountChain_error_shape _ e hch
                rw [hs] at h
                simp at h
              | ok cd =>
                have hd := loadAmountChain_ok_dtype _ cd hch
                simp only [hch, hd, isIntegerDtype] at h
                simp at h
            · rw [if_neg hmc] at h
              simp at h
          · rw [if_neg hall] at h
            simp at h
    · simp only [findExpensesTab] at h
      rw [if_neg hmem] at h
      simp at h

/-! ## Lemmas about the cache file round trip -/

/-- Text without carriage returns passes newline translation unchanged. -/
theorem nlTranslateAux_id (l : List Char) (h : '\r' ∉ l) :
    nlTranslateAux false l = l := by
  induction l with
  | nil => rfl
  | cons c rest ih =>
    have hc : c ≠ '\r' := fun e => h (e ▸ List.mem_cons_self c rest)
    have hr : '\r' ∉ rest := fun m => h (List.mem_cons_of_mem _ m)
    simp [nlTranslateAux, hc, ih hr]

/-- Splitting on newlines always yields at least one segment. -/
theorem splitNl_ne_nil (l : List Char) : splitNl l ≠ [] := by
  cases l with
  | nil => simp [splitNl]
  | cons c rest =>
    rw [splitNl]
    split
    · simp
    · split <;> simp

/-- A newline-free segment followed by a newline splits off whole. -/
theorem splitNl_append_newline (u t : List Char) (h : '\n' ∉ u) :
    splitNl (u ++ '\n' :: t) = u :: splitNl t := by
  induction u with
  | nil =>
    rcases h2 : splitNl t with _ | ⟨seg, segs⟩
    · exact absurd h2 (splitNl_ne_nil t)
    · simp [splitNl, h2]
  | cons c u2 ih =>
    have hc : c ≠ '\n' := fun e => h (e ▸ List.mem_cons_self c u2)
    have hu : '\n' ∉ u2 := fun m => h (List.mem_cons_of_mem _ m)
    simp only [List.cons_append, splitNl, List.append_eq]
    rw [ih hu]
    simp [hc]

/-- Splitting the written cache file recovers the url list plus the empty
text after the final newline. -/
theorem splitNl_writeCache (urls : List (List Char)) (h : ∀ u ∈ urls, '\n' ∉ u) :
    splitNl (writeCacheContent urls) = urls ++ [[]] := by
  induction urls with
  | nil => simp [writeCacheContent, splitNl]
  | cons u rest ih =>
    have h1 : '\n' ∉ u := h u (List.mem_cons_self u rest)
    have h2 : ∀ v ∈ rest, '\n' ∉ v := fun v hv => h v (List.mem_cons_of_mem _ hv)
    have : writeCacheContent (u :: rest) = u ++ '\n' :: writeCacheContent rest := by
      simp [writeCacheContent]
    rw [this, splitNl_append_newline u _ h1, ih h2]
    rfl

/-- The written cache file contains no carriage return when no url does. -/
theorem writeCache_no_cr (urls : List (List Char)) (h : ∀ u ∈ urls, '\r' ∉ u) :
    '\r' ∉ writeCacheContent urls := by
  intro hmem
  rw [writeCacheContent] at hmem
  rw [List.mem_flatten] at hmem
  obtain ⟨l, hl, hcl⟩ := hmem
  rw [List.mem_map] at hl
  obtain ⟨u, hu, rfl⟩ := hl
  rw [List.mem_append] at hcl
  rcases hcl with hcl | hcl
  · exact h u hu hcl
  · simp at hcl

/-- Dropping the final empty segment undoes the appended one. -/
theorem dropLastEmptySeg_concat (l : List (List Char)) :
    dropLastEmptySeg (l ++ [[]]) = l := by
  simp [dropLastEmptySeg, List.getLast?_concat, List.dropLast_concat]

/-! ## Concrete fixtures used by counterexamples and witnesses -/

/-- Default parser configuration: no exclude regex. -/
def cfg0 : Config := ⟨none⟩

/-- A source whose spreadsheet cannot be opened. -/
def srcBoom : Source :=
  ⟨"https://docs.google.com/spreadsheets/d/boom", Except.error "PermissionError 403"⟩

/-- The end-to-end example sheet of the spec: Coffee at `$3.50`, Rent at
`(1200.00)`. -/
def wsC2 : Worksheet :=
  ⟨"Expenses", [["Date", "Description", "Amount"],
                ["01/15/2024", "Coffee", "$3.50"],
                ["01/16/2024", "Rent", "(1200.00)"]]⟩

/-- Source exposing the end-to-end example sheet. -/
def srcC2 : Source := ⟨"https://docs.google.com/spreadsheets/d/c2", Except.ok ⟨[wsC2]⟩⟩

/-- A sheet with one well-formed and one malformed amount whose raw text
contains `$` and `,`. -/
def wsC3 : Worksheet :=
  ⟨"Expenses", [["Date", "Description", "Amount"],
                ["01/01/2024", "Snacks", "$3.50"],
                ["01/02/2024", "Typo", "$1,2x"]]⟩

/-- Source exposing the malformed-amount sheet. -/
def srcC3 : Source := ⟨"https://docs.google.com/spreadsheets/d/c3", Except.ok ⟨[wsC3]⟩⟩

/-- Valid source A with two rows. -/
def wsA5 : Worksheet :=
  ⟨"Expenses", [["Date", "Description", "Amount"],
                ["01/01/2024", "Alpha", "1.00"],
                ["01/02/2024", "AlphaTwo", "2.50"]]⟩

/-- Source A. -/
def srcA5 : Source := ⟨"https://docs.google.com/spreadsheets/d/a", Except.ok ⟨[wsA5]⟩⟩

/-- Spreadsheet B without an `Expenses` tab. -/
def shB5 : Spreadsheet := ⟨[⟨"Summary", [["nothing"]]⟩]⟩

/-- Source B. -/
def srcB5 : Source := ⟨"https://docs.google.com/spreadsheets/d/b", Except.ok shB5⟩

/-- Valid source C with one row. -/
def wsC5 : Worksheet :=
  ⟨"Expenses", [["Date", "Description", "Amount"],
                ["02/01/2024", "Gamma", "4.00"]]⟩

/-- Source C. -/
def srcC5 : Source := ⟨"https://docs.google.com/spreadsheets/d/c", Except.ok ⟨[wsC5]⟩⟩

/-- A worksheet whose header lacks the `Amount` column. -/
def wsC6 : Worksheet :=
  ⟨"Expenses", [["Date", "Description"], ["01/01/2024", "NoAmount"]]⟩

/-- Spreadsheet holding only the column-deficient worksheet. -/
def shC6 : Spreadsheet := ⟨[wsC6]⟩

/-- Source exposing the column-deficient worksheet. -/
def srcC6 : Source := ⟨"https://docs.google.com/spreadsheets/d/f", Except.ok shC6⟩

/-! ## C1 -/

/-- C1 is false on the code: a run in which zero sources succeed performs
no ledger write at all (load_data.py lines 84-97 only write inside
`if self.all_expenses:`), so no empty ledger overwrites the previous file.
Here the single source fails to open, the summary records the failure,
and `ledgerWrite` is `none` — in particular not a write of the empty
ledger. -/
theorem C1_counterexample :
    (parseSheets cfg0 [srcBoom]).summary =
      [⟨"https://docs.google.com/spreadsheets/d/boom", 0,
        Status.error (PyExc.openErr "PermissionError 403")⟩] ∧
    (parseSheets cfg0 [srcBoom]).ledgerWrite = none ∧
    (parseSheets cfg0 [srcBoom]).ledgerWrite ≠ some [] := by
  exact ⟨by decide, by decide, by decide⟩

/-- C1 amended: for every run in which no per-source outcome contributed
any records, the aggregator does not write the ledger file at all (any
previous ledger content is left in place), emits the
`No expenses compiled.` warning instead of an error, and still reports
every attempted source in the status summary. -/
theorem C1_amended (cfg : Config) (srcs : List Source)
    (h : ∀ src ∈ srcs, (parseSingleSheet cfg src).rows = 0) :
    (parseSheets cfg srcs).ledgerWrite = none ∧
    (parseSheets cfg srcs).warned = true ∧
    (parseSheets cfg srcs).summary.length = srcs.length := by
  have hemp : (srcs.map (parseSingleSheet cfg)).filterMap
      (fun o => if o.rows > 0 then o.df else none) = [] := by
    rw [List.filterMap_eq_nil_iff]
    intro o ho
    rw [List.mem_map] at ho
    obtain ⟨src, hsrc, rfl⟩ := ho
    rw [h src hsrc]
    simp
  simp [parseSheets, hemp]

/-- C1 witness: the amended statement at the single failing source. -/
theorem C1_witness :
    (∀ src ∈ [srcBoom], (parseSingleSheet cfg0 src).rows = 0) ∧
    ((parseSheets cfg0 [srcBoom]).ledgerWrite = none ∧
     (parseSheets cfg0 [srcBoom]).warned = true ∧
     (parseSheets cfg0 [srcBoom]).summary.length = [srcBoom].length) :=
  ⟨by decide, C1_amended cfg0 [srcBoom] (by decide)⟩

/-! ## C2 -/

/-- C2 is false on load_data.py: for the spec's end-to-end example sheet,
the later variant (no parenthesis negation) does not merely read
`(1200.00)` as positive — the stripped string fails `astype(float)`, the
whole source is classified as an `Error` outcome with zero rows, and the
run writes no ledger at all, so the ledger contains neither two records
nor an `amountCents` of `120000`. -/
theorem C2_counterexample :
    parseSingleSheet cfg0 srcC2 =
      ⟨"https://docs.google.com/spreadsheets/d/c2", 0,
       Status.error (PyExc.floatConv "(1200.00)"), none⟩ ∧
    (parseSheets cfg0 [srcC2]).ledgerWrite = none := by
  exact ⟨by decide, by decide⟩

/-- C2 amended: on the end-to-end example sheet the historical variant
(main.py, parenthesis negation active) succeeds with exactly two records
of `amountCents` 350 and -120000; the later variant (load_data.py, no
negation) fails the whole source with a float-conversion error on
`(1200.00)` and contributes no records. -/
theorem C2_amended :
    legacyParseSingleSheet srcC2 =
      ⟨"https://docs.google.com/spreadsheets/d/c2", 2, Status.ok,
       some [⟨"01/15/2024", "Coffee", 350⟩, ⟨"01/16/2024", "Rent", -120000⟩]⟩ ∧
    parseSingleSheet cfg0 srcC2 =
      ⟨"https://docs.google.com/spreadsheets/d/c2", 0,
       Status.error (PyExc.floatConv "(1200.00)"), none⟩ := by
  exact ⟨by decide, by decide⟩

/-! ## C3 -/

/-- A string column containing an unconvertible entry makes the whole
`astype(float)` conversion fail, and the raised error carries some
unconvertible entry of the column. -/
theorem astypeFloat_fails_of_mem (l : List String) (s : String)
    (hs : s ∈ l) (hbad : pyFloatOfString s = none) :
    ∃ t, astypeFloat l = Except.error (Exc.exc (PyExc.floatConv t)) ∧
      t ∈ l ∧ pyFloatOfString t = none := by
  induction l with
  | nil => simp at hs
  | cons a rest ih =>
    cases hp : pyFloatOfString a with
    | none =>
      refine ⟨a, ?_, List.mem_cons_self a rest, hp⟩
      rw [astypeFloat, hp]
    | some q =>
      have hsr : s ∈ rest := by
        rcases List.mem_cons.mp hs with rfl | hm
        · rw [hp] at hbad; simp at hbad
        · exact hm
      obtain ⟨t, ht, htm, htb⟩ := ih hsr
      refine ⟨t, ?_, List.mem_cons_of_mem _ htm, htb⟩
      rw [astypeFloat, hp, ht]
      rfl

/-- C3 is false as stated: the error payload is the amount string as it
stands after removing `,` and `$`, not the original raw string. On the
concrete sheet the raw amount `$1,2x` produces the outcome error
`could not convert string to float: 12x`, and `12x` differs from
`$1,2x`. -/
theorem C3_counterexample :
    parseSingleSheet cfg0 srcC3 =
      ⟨"https://docs.google.com/spreadsheets/d/c3", 0,
       Status.error (PyExc.floatConv "12x"), none⟩ ∧
    "12x" ≠ "$1,2x" := by
  exact ⟨by decide, by decide⟩

/-- C3 amended: whenever some amount of the column is non-empty after
removing `,` and `$` and not parseable as a decimal number, the amount
chain fails (no silent coercion) with a float-conversion error whose
payload is unparseable and is the post-strip form of some amount of the
column. -/
theorem C3_amended (amounts : List String) (s : String) (hs : s ∈ amounts)
    (hne : stripAmount s ≠ "") (hbad : pyFloatOfString (stripAmount s) = none) :
    ∃ t, loadAmountChain amounts = Except.error (Exc.exc (PyExc.floatConv t)) ∧
      pyFloatOfString t = none ∧
      ∃ u ∈ amounts, t = emptyToZero (stripAmount u) := by
  have hmem : emptyToZero (stripAmount s) ∈ (amounts.map stripAmount).map emptyToZero :=
    List.mem_map_of_mem _ (List.mem_map_of_mem _ hs)
  have hbad2 : pyFloatOfString (emptyToZero (stripAmount s)) = none := by
    unfold emptyToZero
    rw [if_neg hne]
    exact hbad
  obtain ⟨t, ht, htm, htb⟩ := astypeFloat_fails_of_mem _ _ hmem hbad2
  refine ⟨t, ?_, htb, ?_⟩
  · simp only [loadAmountChain, ht, Except.map]
  · rw [List.mem_map] at htm
    obtain ⟨v, hv, rfl⟩ := htm
    rw [List.mem_map] at hv
    obtain ⟨u, hu, rfl⟩ := hv
    exact ⟨u, hu, rfl⟩

/-- C3 witness: the amended statement on the concrete amount column
`["$3.50", "1,2x$"]`, whose second entry strips to the unparseable
`12x`. -/
theorem C3_witness :
    ("1,2x$" ∈ ["$3.50", "1,2x$"] ∧ stripAmount "1,2x$" ≠ "" ∧
      pyFloatOfString (stripAmount "1,2x$") = none) ∧
    (∃ t, loadAmountChain ["$3.50", "1,2x$"] = Except.error (Exc.exc (PyExc.floatConv t)) ∧
      pyFloatOfString t = none ∧
      ∃ u ∈ ["$3.50", "1,2x$"], t = emptyToZero (stripAmount u)) :=
  ⟨⟨by decide, by decide, by decide⟩,
   C3_amended ["$3.50", "1,2x$"] "1,2x$" (by decide) (by decide) (by decide)⟩

/-! ## C4 -/

/-- C4 is false as stated: the whitespace-only input `" "` is empty after
removing `,` and `$` and trimming whitespace, yet `parseAmount` raises a
float-conversion error instead of yielding 0 — only the exactly-empty
string is rescued by `Series.replace("", "0")`. -/
theorem C4_counterexample :
    (stripAmount " ").data.all isPyWs = true ∧
    parseAmountCents " " = Except.error (Exc.exc (PyExc.floatConv " ")) ∧
    parseAmountCents " " ≠ Except.ok 0 := by
  exact ⟨by decide, by decide, by decide⟩

/-- C4 amended: amount parsing is the pure function `parseAmountCents`
with `parseAmountCents "$1,234.50" = 123450`, `parseAmountCents "12" =
1200`, `parseAmountCents "" = 0`, and every input that is exactly empty
after removing `,` and `$` (with no whitespace trimming) yields 0. -/
theorem C4_amended :
    parseAmountCents "$1,234.50" = Except.ok 123450 ∧
    parseAmountCents "12" = Except.ok 1200 ∧
    parseAmountCents "" = Except.ok 0 ∧
    ∀ s : String, stripAmount s = "" → parseAmountCents s = Except.ok 0 := by
  refine ⟨by decide, by decide, by decide, ?_⟩
  intro s h
  simp only [parseAmountCents, h]
  decide

/-! ## C5 -/

/-- C5: for sources `[A, B, C]` with A and C succeeding and B lacking the
`Expenses` tab, the run processes all three, the status report lists the
three outcomes in order with B marked as the `'Expenses' tab missing`
assertion (a validation failure) with zero rows, and the combined ledger
is exactly A's records followed by C's records. -/
theorem C5_theorem (cfg : Config) (A B C : Source) (shB : Spreadsheet)
    (hA : (parseSingleSheet cfg A).status = Status.ok)
    (hC : (parseSingleSheet cfg C).status = Status.ok)
    (hBf : B.fetch = Except.ok shB)
    (hBt : "Expenses" ∉ shB.sheets.map Worksheet.title) :
    (parseSheets cfg [A, B, C]).summary =
      [⟨A.url, (parseSingleSheet cfg A).rows, Status.ok⟩,
       ⟨B.url, 0, Status.assertionFailed FailReason.missingTab⟩,
       ⟨C.url, (parseSingleSheet cfg C).rows, Status.ok⟩] ∧
    (parseSheets cfg [A, B, C]).ledgerWrite.getD [] =
      (parseSingleSheet cfg A).df.getD [] ++ (parseSingleSheet cfg C).df.getD [] := by
  obtain ⟨recsA, hAeq⟩ := parseSingleSheet_ok_shape cfg A hA
  obtain ⟨recsC, hCeq⟩ := parseSingleSheet_ok_shape cfg C hC
  have hBeq := parseSingleSheet_missingTab cfg B shB hBf hBt
  rcases recsA with _ | ⟨a, as⟩ <;> rcases recsC with _ | ⟨c2, cs⟩ <;>
    simp [parseSheets, hAeq, hBeq, hCeq, summaryOf]

/-- C5 witness: the isolation statement at the concrete sources
`[srcA5, srcB5, srcC5]`. -/
theorem C5_witness :
    ((parseSingleSheet cfg0 srcA5).status = Status.ok ∧
     (parseSingleSheet cfg0 srcC5).status = Status.ok ∧
     srcB5.fetch = Except.ok shB5 ∧
     "Expenses" ∉ shB5.sheets.map Worksheet.title) ∧
    ((parseSheets cfg0 [srcA5, srcB5, srcC5]).summary =
      [⟨srcA5.url, (parseSingleSheet cfg0 srcA5).rows, Status.ok⟩,
       ⟨srcB5.url, 0, Status.assertionFailed FailReason.missingTab⟩,
       ⟨srcC5.url, (parseSingleSheet cfg0 srcC5).rows, Status.ok⟩] ∧
     (parseSheets cfg0 [srcA5, srcB5, srcC5]).ledgerWrite.getD [] =
      (parseSingleSheet cfg0 srcA5).df.getD [] ++ (parseSingleSheet cfg0 srcC5).df.getD []) :=
  ⟨⟨by decide, by decide, by decide, by decide⟩,
   C5_theorem cfg0 srcA5 srcB5 srcC5 shB5 (by decide) (by decide) (by decide) (by decide)⟩

/-! ## C6 -/

/-- C6: a sheet whose header row lacks required columns fails the
`Missing columns` assertion naming exactly the absent required columns,
with zero rows and no parsed frame (no normalization output). -/
theorem C6_theorem (cfg : Config) (src : Source) (sh : Spreadsheet) (w : Worksheet)
    (header : List String) (data : List (List String))
    (hf : src.fetch = Except.ok sh)
    (hfind : sh.sheets.find? (fun x => x.title == "Expenses") = some w)
    (hcells : w.cells = header :: data)
    (hrect : ∀ r ∈ data, r.length = header.length)
    (hmiss : missingColumnsOf header ≠ []) :
    parseSingleSheet cfg src =
      ⟨src.url, 0,
       Status.assertionFailed (FailReason.missingColumns (missingColumnsOf header)), none⟩ ∧
    ∀ c, c ∈ missingColumnsOf header ↔ (c ∈ requiredCols ∧ c ∉ header) := by
  constructor
  · have hmem : "Expenses" ∈ sh.sheets.map Worksheet.title := by
      have hpw := List.find?_some hfind
      rw [List.mem_map]
      exact ⟨w, List.mem_of_find?_eq_some hfind, beq_iff_eq.mp hpw⟩
    have hall : data.all (fun r => decide (r.length = header.length)) = true := by
      rw [List.all_eq_true]
      intro r hr
      exact decide_eq_true (hrect r hr)
    simp only [parseSingleSheet, parseCoreWith, openSheet, hf, findExpensesTab,
      if_pos hmem, hfind, hcells, mkDataFrame, hall, if_pos, checkColumns]
    rw [if_neg hmiss]
    rfl
  · intro c
    simp [missingColumnsOf, List.mem_filter]

/-- C6 witness: the missing-column statement at the concrete sheet whose
header is `[Date, Description]`, where exactly `Amount` is absent. -/
theorem C6_witness :
    (srcC6.fetch = Except.ok shC6 ∧
     shC6.sheets.find? (fun x => x.title == "Expenses") = some wsC6 ∧
     wsC6.cells = ["Date", "Description"] :: [["01/01/2024", "NoAmount"]] ∧
     (∀ r ∈ [["01/01/2024", "NoAmount"]], r.length = ["Date", "Description"].length) ∧
     missingColumnsOf ["Date", "Description"] ≠ []) ∧
    (parseSingleSheet cfg0 srcC6 =
      ⟨srcC6.url, 0,
       Status.assertionFailed
         (FailReason.missingColumns (missingColumnsOf ["Date", "Description"])), none⟩ ∧
     ∀ c, c ∈ missingColumnsOf ["Date", "Description"] ↔
       (c ∈ requiredCols ∧ c ∉ ["Date", "Description"])) :=
  ⟨⟨by decide, by decide, by decide, by decide, by decide⟩,
   C6_theorem cfg0 srcC6 shC6 wsC6 ["Date", "Description"] [["01/01/2024", "NoAmount"]]
     (by decide) (by decide) (by decide) (by decide) (by decide)⟩

/-! ## C7 -/

/-- C7: `_parseSingleSheet` always returns an outcome for the requested
source (the try/except wrapper turns every open, validation and
normalization failure into the status field instead of propagating), and
every non-OK outcome carries `rows = 0` and no parsed frame. -/
theorem C7_theorem (cfg : Config) (src : Source)
    (h : (parseSingleSheet cfg src).status ≠ Status.ok) :
    (parseSingleSheet cfg src).sheet_url = src.url ∧
    (parseSingleSheet cfg src).rows = 0 ∧
    (parseSingleSheet cfg src).df = none := by
  cases hr : parseCoreWith loadAmountChain cfg.excludeRegex src with
  | ok recs => simp [parseSingleSheet, outcomeOf, hr] at h
  | error e => cases e <;> simp [parseSingleSheet, outcomeOf, hr]

/-- C7 witness: the failure-capture statement at a source whose
spreadsheet cannot be opened. -/
theorem C7_witness :
    (parseSingleSheet cfg0 srcBoom).status ≠ Status.ok ∧
    ((parseSingleSheet cfg0 srcBoom).sheet_url = srcBoom.url ∧
     (parseSingleSheet cfg0 srcBoom).rows = 0 ∧
     (parseSingleSheet cfg0 srcBoom).df = none) :=
  ⟨by decide, C7_theorem cfg0 srcBoom (by decide)⟩

/-! ## C8 -/

/-- C8 is false as stated: `line.rstrip()` removes all trailing
whitespace, not only the newline, so a handle URL ending in a space (an
id the provider could in principle return) does not survive the cache
round trip. -/
theorem C8_counterexample :
    cacheRoundTrip [liveSheetUrl ("abc ".data)] ≠ [liveSheetUrl ("abc ".data)] := by
  decide

/-- C8 amended: the cache round trip returns exactly the written ordered
list — no deduplication, reordering, insertion or loss — provided every
handle URL is free of newline and carriage-return characters and carries
no trailing whitespace (`rstrip` leaves it unchanged). -/
theorem C8_amended (urls : List (List Char))
    (h : ∀ u ∈ urls, '\n' ∉ u ∧ '\r' ∉ u ∧ rstripChars u = u) :
    cacheRoundTrip urls = urls := by
  simp only [cacheRoundTrip, readCacheUrls, pyReadLines, nlTranslate]
  rw [nlTranslateAux_id _ (writeCache_no_cr urls (fun u hu => (h u hu).2.1))]
  rw [splitNl_writeCache urls (fun u hu => (h u hu).1)]
  rw [dropLastEmptySeg_concat]
  have hid : ∀ u ∈ urls, rstripChars u = id u := fun u hu => (h u hu).2.2
  rw [List.map_congr_left hid, List.map_id]

/-- C8 witness: the round trip preserves two concrete live-query
handles. -/
theorem C8_witness :
    (∀ u ∈ [liveSheetUrl ("abc".data), liveSheetUrl ("xyz".data)],
      '\n' ∉ u ∧ '\r' ∉ u ∧ rstripChars u = u) ∧
    cacheRoundTrip [liveSheetUrl ("abc".data), liveSheetUrl ("xyz".data)] =
      [liveSheetUrl ("abc".data), liveSheetUrl ("xyz".data)] :=
  ⟨by decide, C8_amended [liveSheetUrl ("abc".data), liveSheetUrl ("xyz".data)] (by decide)⟩

/-! ## C9 -/

/-- C9: after the validator's projection onto the required columns, the
`Accounted` column is never present, the drop-`Accounted` branch is the
identity (its condition can never hold), and every projected column label
belongs to `{Date, Description, Amount}`. -/
theorem C9_theorem (df : DataFrame) :
    "Accounted" ∉ (projectCols df requiredCols).header ∧
    dropAccounted (projectCols df requiredCols) = projectCols df requiredCols ∧
    (projectCols df requiredCols).header.all (fun c => decide (c ∈ requiredCols)) = true := by
  have hsub : ∀ c ∈ (projectCols df requiredCols).header, c ∈ requiredCols := by
    intro c hc
    simp only [projectCols, List.mem_filter, decide_eq_true_eq] at hc
    exact hc.2
  have hacc : "Accounted" ∉ (projectCols df requiredCols).header := by
    intro hmem
    have h2 := hsub _ hmem
    simp [requiredCols] at h2
  refine ⟨hacc, ?_, ?_⟩
  · rw [dropAccounted, if_neg hacc]
  · rw [List.all_eq_true]
    intro c hc
    exact decide_eq_true (hsub c hc)

/-! ## C10 -/

/-- C10: the `amountCents not integer type` assertion can never fire —
whenever the conversion chain completes, its result dtype is int64, so no
sheet is ever rejected by this check and no outcome ever carries that
assertion failure. -/
theorem C10_theorem (cfg : Config) (src : Source) :
    (parseSingleSheet cfg src).status ≠ Status.assertionFailed FailReason.notIntegerDtype := by
  intro h
  cases hr : parseCoreWith loadAmountChain cfg.excludeRegex src with
  | ok recs => simp [parseSingleSheet, outcomeOf, hr] at h
  | error e =>
    cases e with
    | exc e2 => simp [parseSingleSheet, outcomeOf, hr] at h
    | assert r =>
      simp only [parseSingleSheet, outcomeOf, hr] at h
      injection h with h2
      exact parseCore_no_dtype_assert cfg.excludeRegex src (by rw [hr, h2])
